import Mathlib

/-!
Verification of the request dispatch engine of the blaze batch HTTP client.

This file gives a shallow embedding, in Lean 4, of the core components of
the repository (endpoint health tracking and capacity gate, weighted load
balancing with cooldown recovery, the retry loop of the HTTP client, the
backoff computation, response-body truncation, configuration validation,
and the per-request dispatch path of the processor), together with theorems
settling the specification claims about them.

Conventions of the embedding:
- time is measured in abstract milliseconds (a `Nat` stands for an
  `Instant`; `elapsed` is truncated subtraction, which agrees with the code
  on every real trace where observations are monotone);
- machine counters are `Nat`; the `in_flight` counter is an `AtomicUsize`
  in the source, whose `fetch_sub` wraps on underflow, so `release` maps
  `0` to `2 ^ 64 - 1` exactly as the compiled Rust does;
- JSON values are abstracted to `Nat` (no claim inspects a body);
- randomness is passed in: the draw of `rng.random_range(0..total)` becomes
  an explicit `pick` argument, and `rand::random::<f64>()` an explicit
  rational `r`, with the postconditions of those generators stated as
  hypotheses where a theorem needs them;
- floating-point backoff arithmetic is modelled over `ℚ`, with the
  `as u64` cast modelled as floor saturated at zero, which is its value on
  every nonnegative finite input;
- network calls are an oracle `Nat → AttemptResult` giving the outcome of
  each numbered attempt of `send_once`.
-/

namespace Blaze

/-- Value of `usize::MAX` on the 64-bit targets the crate is built for. -/
def USIZE_MAX : Nat := 2 ^ 64 - 1

/-- Configuration of a single endpoint (`config.rs`, `EndpointConfig`). -/
structure EndpointConfig where
  url : String
  weight : Nat
  apiKey : Option String
  model : Option String
  maxConcurrent : Nat
deriving DecidableEq

/-- The mutable state of an `Endpoint` (`endpoint.rs`, fields of `Endpoint`
apart from the immutable `config`). -/
structure EndpointState where
  inFlight : Nat
  successCount : Nat
  failureCount : Nat
  totalLatencyUs : Nat
  healthy : Bool
  lastHealthCheck : Option Nat
  consecutiveFailures : Nat
deriving DecidableEq

/-- Model of `Endpoint::new`: all counters zero, healthy, no health-check time. -/
def Endpoint.init : EndpointState :=
  { inFlight := 0, successCount := 0, failureCount := 0, totalLatencyUs := 0,
    healthy := true, lastHealthCheck := none, consecutiveFailures := 0 }

/-- Model of `Endpoint::mark_healthy`. -/
def markHealthy (s : EndpointState) : EndpointState :=
  { s with healthy := true, consecutiveFailures := 0 }

/-- Model of `Endpoint::mark_unhealthy` at time `now`. -/
def markUnhealthy (now : Nat) (s : EndpointState) : EndpointState :=
  { s with healthy := false, lastHealthCheck := some now }

/-- Model of `Endpoint::should_retry` at time `now` with the given cooldown. -/
def shouldRetry (now cooldown : Nat) (s : EndpointState) : Bool :=
  if s.healthy then true
  else
    match s.lastHealthCheck with
    | some t => cooldown ≤ now - t
    | none => true

/-- Model of `Endpoint::record_success` with the observed latency in microseconds. -/
def recordSuccess (latency : Nat) (s : EndpointState) : EndpointState :=
  markHealthy
    { s with successCount := s.successCount + 1,
             totalLatencyUs := s.totalLatencyUs + latency,
             consecutiveFailures := 0 }

/-- Model of `Endpoint::record_failure` at time `now`. -/
def recordFailure (now : Nat) (s : EndpointState) : EndpointState :=
  let s' := { s with failureCount := s.failureCount + 1,
                     consecutiveFailures := s.consecutiveFailures + 1 }
  if 3 ≤ s'.consecutiveFailures then markUnhealthy now s' else s'

/-- Model of `Endpoint::can_accept`. -/
def canAccept (c : EndpointConfig) (s : EndpointState) : Bool :=
  s.inFlight < c.maxConcurrent

/-- Model of `Endpoint::acquire`: returns whether a slot was taken, with the state
after the call. -/
def acquire (c : EndpointConfig) (s : EndpointState) : Bool × EndpointState :=
  if c.maxConcurrent ≤ s.inFlight then (false, s)
  else (true, { s with inFlight := s.inFlight + 1 })

/-- Model of `Endpoint::release`: `fetch_sub(1)` on an `AtomicUsize` wraps at zero. -/
def release (s : EndpointState) : EndpointState :=
  { s with inFlight := if s.inFlight = 0 then USIZE_MAX else s.inFlight - 1 }

/-- A recorded request outcome fed to an endpoint: the argument of
`record_success` is the latency, the argument of `record_failure` is the
time at which the failure is recorded (used by `mark_unhealthy`). -/
inductive HealthEvent where
  | success (latency : Nat)
  | failure (now : Nat)
deriving DecidableEq

/-- Whether an event is a recorded failure. -/
def HealthEvent.isFailure : HealthEvent → Bool
  | .failure _ => true
  | .success _ => false

/-- Apply one recorded outcome to an endpoint. -/
def applyEvent (s : EndpointState) : HealthEvent → EndpointState
  | .success l => recordSuccess l s
  | .failure t => recordFailure t s

/-- Apply a sequence of recorded outcomes, oldest first. -/
def runEvents (es : List HealthEvent) (s : EndpointState) : EndpointState :=
  es.foldl applyEvent s

/-- Length of the trailing run of consecutive recorded failures. -/
def trailingRun (es : List HealthEvent) : Nat :=
  (es.reverse.takeWhile HealthEvent.isFailure).length

lemma runEvents_append (es fs : List HealthEvent) (s : EndpointState) :
    runEvents (es ++ fs) s = runEvents fs (runEvents es s) := by
  simp [runEvents, List.foldl_append]

lemma recordFailure_consecutive (now : Nat) (s : EndpointState) :
    (recordFailure now s).consecutiveFailures = s.consecutiveFailures + 1 := by
  simp only [recordFailure, markUnhealthy]
  split <;> rfl

lemma recordFailure_healthy (now : Nat) (s : EndpointState) :
    (recordFailure now s).healthy =
      (decide (s.consecutiveFailures + 1 < 3) && s.healthy) := by
  simp only [recordFailure, markUnhealthy]
  split <;> rename_i h <;> simp at h <;> simp [h]
  omega

lemma runEvents_consecutive (es : List HealthEvent) (s : EndpointState)
    (h : s.consecutiveFailures = 0) :
    (runEvents es s).consecutiveFailures = trailingRun es := by
  induction es using List.reverseRecOn with
  | nil => simpa [runEvents, trailingRun]
  | append_singleton es e ih =>
      rw [runEvents_append]
      cases e with
      | success l =>
          simp [runEvents, applyEvent, trailingRun, recordSuccess, markHealthy,
            List.takeWhile_cons, HealthEvent.isFailure]
      | failure t =>
          simp only [runEvents, List.foldl_cons, List.foldl_nil, applyEvent]
          rw [recordFailure_consecutive]
          rw [show runEvents es s = List.foldl applyEvent s es from rfl] at ih
          rw [ih]
          simp [trailingRun, HealthEvent.isFailure]

lemma runEvents_healthy (es : List HealthEvent) (s : EndpointState)
    (h : s.healthy = decide (s.consecutiveFailures < 3)) :
    (runEvents es s).healthy =
      decide ((runEvents es s).consecutiveFailures < 3) := by
  induction es generalizing s with
  | nil => simpa [runEvents]
  | cons e es ih =>
      rw [show runEvents (e :: es) s = runEvents es (applyEvent s e) from rfl]
      apply ih
      cases e with
      | success l => simp [applyEvent, recordSuccess, markHealthy]
      | failure t =>
          rw [applyEvent, recordFailure_healthy, recordFailure_consecutive, h]
          rcases Nat.lt_or_ge (s.consecutiveFailures + 1) 3 with hlt | hge
          · have : s.consecutiveFailures < 3 := by omega
            simp [hlt, this]
          · have : ¬ s.consecutiveFailures + 1 < 3 := by omega
            simp [this]

/-- Claim C8: after any finite sequence of `record_success` and
`record_failure` calls starting from the initial state, the endpoint is
unhealthy exactly when the trailing run of consecutive recorded failures
has length at least 3, and `consecutive_failures` equals that trailing run;
a `record_failure` that brings `consecutive_failures` to 3 or more sets
`healthy` to false and `last_health_check` to the current time, and any
`record_success` resets `consecutive_failures` to 0 and sets `healthy` to
true. -/
theorem c8_health_state_machine :
    (∀ es : List HealthEvent,
        ((runEvents es Endpoint.init).healthy = true ↔ trailingRun es < 3) ∧
        (runEvents es Endpoint.init).consecutiveFailures = trailingRun es) ∧
    (∀ (s : EndpointState) (now : Nat), 3 ≤ s.consecutiveFailures + 1 →
        (recordFailure now s).healthy = false ∧
        (recordFailure now s).lastHealthCheck = some now) ∧
    (∀ (s : EndpointState) (latency : Nat),
        (recordSuccess latency s).consecutiveFailures = 0 ∧
        (recordSuccess latency s).healthy = true) := by
  refine ⟨fun es => ?_, fun s now h => ?_, fun s latency => ⟨rfl, rfl⟩⟩
  · have hc : (runEvents es Endpoint.init).consecutiveFailures = trailingRun es :=
      runEvents_consecutive es Endpoint.init rfl
    have hh := runEvents_healthy es Endpoint.init (by simp [Endpoint.init])
    rw [hc] at hh
    exact ⟨by rw [hh]; simp, hc⟩
  · have h3 : 3 ≤ s.consecutiveFailures + 1 := h
    constructor
    · rw [recordFailure_healthy]
      have : ¬ s.consecutiveFailures + 1 < 3 := by omega
      simp [this]
    · simp only [recordFailure, markUnhealthy]
      have : 3 ≤ s.consecutiveFailures + 1 := h3
      simp [this]

/-- Witness for C8 at concrete inputs: three consecutive failures make the
endpoint unhealthy with `consecutive_failures = 3`, and a `record_failure`
on a state with two consecutive failures quarantines it at the current
time. -/
theorem c8_health_state_machine_witness :
    (runEvents [HealthEvent.failure 0, HealthEvent.failure 1,
        HealthEvent.failure 2] Endpoint.init).consecutiveFailures = 3 ∧
    (recordFailure 7 { Endpoint.init with consecutiveFailures := 2 }).lastHealthCheck
      = some 7 := by
  have h := c8_health_state_machine
  refine ⟨?_, ?_⟩
  · have h1 := (h.1 [HealthEvent.failure 0, HealthEvent.failure 1,
      HealthEvent.failure 2]).2
    rw [h1]; decide
  · exact (h.2.1 { Endpoint.init with consecutiveFailures := 2 } 7 (by decide)).2

/-- A request as parsed from the input file (`request.rs`, `ApiRequest`);
the custom JSON body is abstracted to a `Nat`. -/
structure ApiRequest where
  input : Option String
  body : Option Nat
  lineNumber : Nat
deriving DecidableEq

/-- From `request.rs`, `ResponseMetadata`. -/
structure ResponseMetadata where
  endpoint : String
  latencyMs : Nat
  attempts : Nat
deriving DecidableEq

/-- From `request.rs`, `ApiResponse`; the parsed JSON body is abstracted. -/
structure ApiResponse where
  input : Option String
  response : Nat
  metadata : Option ResponseMetadata
deriving DecidableEq

/-- From `request.rs`, `ErrorResponse`. -/
structure ErrorResponse where
  input : Option String
  body : Option Nat
  error : String
  statusCode : Option Nat
  lineNumber : Nat
  attempts : Nat
deriving DecidableEq

/-- From `request.rs`, `RequestResult`. -/
inductive RequestResult where
  | success (r : ApiResponse)
  | failure (e : ErrorResponse)
deriving DecidableEq

/-- Outcome of one `send_once` call: a parsed success body, or an error
message with an optional HTTP status. -/
inductive AttemptResult where
  | ok (body : Nat)
  | err (msg : String) (status : Option Nat)
deriving DecidableEq

/-- The non-retryable status test of `send_with_retry` (`client.rs`,
lines 90-99): a present status equal to 400, 401, 403 or 404. -/
def nonRetryable : Option Nat → Bool
  | some code => code == 400 || code == 401 || code == 403 || code == 404
  | none => false

/-- An attempt outcome on which the retry loop would continue: an error
whose status is not in the non-retryable set. -/
def retryableErr : AttemptResult → Bool
  | .ok _ => false
  | .err _ st => !(nonRetryable st)

/-- How the `while attempts < max_attempts` loop of `send_with_retry`
ends: with a successful attempt, or with the recorded last error and
status after a break or exhaustion. -/
inductive LoopExit where
  | success (body : Nat) (attempts : Nat)
  | exited (lastError : Option String) (lastStatus : Option Nat) (attempts : Nat)
deriving DecidableEq

/-- The body of the `while attempts < max_attempts` loop of
`send_with_retry` (`client.rs`, lines 67-114), with the loop condition
expressed through the countdown `remaining = max_attempts - attempts`,
parameterized by the outcome oracle for each numbered attempt. -/
def sendLoopAux (oracle : Nat → AttemptResult) :
    Nat → Nat → Option String → Option Nat → LoopExit
  | 0, attempts, lastError, lastStatus => .exited lastError lastStatus attempts
  | remaining + 1, attempts, _, _ =>
      match oracle (attempts + 1) with
      | .ok body => .success body (attempts + 1)
      | .err msg st =>
          if nonRetryable st then .exited (some msg) st (attempts + 1)
          else sendLoopAux oracle remaining (attempts + 1) (some msg) st

/-- The retry loop of `send_with_retry`, started at `attempts = 0` with no
recorded error or status. -/
def sendLoop (maxAttempts : Nat) (oracle : Nat → AttemptResult) : LoopExit :=
  sendLoopAux oracle maxAttempts 0 none none

/-- Calls a dispatch task makes on the selected endpoint, in order. -/
inductive EpEvent where
  | acquireOk
  | acquireFail
  | releaseEv
  | recordSuccessEv
  | recordFailureEv
deriving DecidableEq

/-- Number of occurrences of one event in a trace. -/
def countEv (e : EpEvent) (tr : List EpEvent) : Nat := tr.count e

/-- Model of `ApiClient::send_with_retry` (`client.rs`, lines 55-129): runs the
retry loop, then on the success exit calls `record_success` and `release`
and builds the success record, and on any other exit calls
`record_failure` and `release` and builds the failure record (error
defaulting to "Unknown error", status attached when one was recorded).
Returns the result, the endpoint state after the call, and the trace of
endpoint calls made. -/
def sendWithRetry (maxAttempts : Nat) (oracle : Nat → AttemptResult)
    (req : ApiRequest) (epCfg : EndpointConfig) (latency now : Nat)
    (s : EndpointState) : RequestResult × EndpointState × List EpEvent :=
  match sendLoop maxAttempts oracle with
  | .success body a =>
      (.success { input := req.input, response := body,
                  metadata := some { endpoint := epCfg.url,
                                     latencyMs := latency, attempts := a } },
       release (recordSuccess latency s),
       [.recordSuccessEv, .releaseEv])
  | .exited lastE lastS a =>
      (.failure { input := req.input, body := req.body,
                  error := lastE.getD "Unknown error",
                  statusCode := lastS, lineNumber := req.lineNumber,
                  attempts := a },
       release (recordFailure now s),
       [.recordFailureEv, .releaseEv])

/-- The slot-acquisition step of the dispatch task (`processor.rs`, lines
126-134): up to three `acquire` attempts with sleeps between them, after
which the task proceeds regardless of the third result. -/
def acquirePhase (c : EndpointConfig) (s : EndpointState) :
    EndpointState × List EpEvent :=
  let a1 := acquire c s
  if a1.1 then (a1.2, [.acquireOk])
  else
    let a2 := acquire c a1.2
    if a2.1 then (a2.2, [.acquireFail, .acquireOk])
    else
      let a3 := acquire c a2.2
      (a3.2, [.acquireFail, .acquireFail,
              if a3.1 then .acquireOk else .acquireFail])

/-- The per-request dispatch path on the selected endpoint (`processor.rs`
lines 125-137): the acquire phase followed by `send_with_retry`. -/
def processTask (maxAttempts : Nat) (oracle : Nat → AttemptResult)
    (req : ApiRequest) (epCfg : EndpointConfig) (latency now : Nat)
    (s : EndpointState) : RequestResult × EndpointState × List EpEvent :=
  let a := acquirePhase epCfg s
  let r := sendWithRetry maxAttempts oracle req epCfg latency now a.1
  (r.1, r.2.1, a.2 ++ r.2.2)

/-- From `config.rs`, `RequestConfig` (the timeout in milliseconds). -/
structure RequestConfig where
  timeoutMs : Nat
  rateLimit : Nat
  workers : Nat
deriving DecidableEq

/-- From `config.rs`, `RetryConfig` (durations in milliseconds; the `f64`
multiplier modelled as a rational). -/
structure RetryConfig where
  maxAttempts : Nat
  initialBackoffMs : Nat
  maxBackoffMs : Nat
  multiplier : ℚ
deriving DecidableEq

/-- From `config.rs`, `Config`. -/
structure Config where
  endpoints : List EndpointConfig
  request : RequestConfig
  retry : RetryConfig

/-- The per-endpoint checks of `Config::validate` (`config.rs`, lines
272-283): empty URL and zero weight are rejected, in that order. -/
def validateEndpoints : List EndpointConfig → Except String Unit
  | [] => .ok ()
  | e :: rest =>
      if e.url = "" then .error "endpoint URL cannot be empty"
      else if e.weight = 0 then .error "endpoint weight must be greater than 0"
      else validateEndpoints rest

/-- Model of `Config::validate` (`config.rs`, lines 267-292): rejects an empty
endpoint list, an empty URL, a zero weight and zero workers; nothing
else is checked. -/
def Config.validate (c : Config) : Except String Unit :=
  if c.endpoints.isEmpty then
    .error "no endpoints configured - at least one endpoint is required"
  else
    match validateEndpoints c.endpoints with
    | .error e => .error e
    | .ok () =>
        if c.request.workers = 0 then .error "workers must be greater than 0"
        else .ok ()

lemma sendLoopAux_exits_nonretryable (oracle : Nat → AttemptResult)
    (n : Nat) (e : String) (st : Option Nat)
    (hbad : oracle n = .err e st) (hst : nonRetryable st = true) :
    ∀ (remaining a : Nat) (lastE : Option String) (lastS : Option Nat),
      a < n → n ≤ a + remaining →
      (∀ i, a < i → i < n → retryableErr (oracle i) = true) →
      sendLoopAux oracle remaining a lastE lastS = .exited (some e) st n := by
  intro remaining
  induction remaining with
  | zero => intro a lastE lastS h1 h2 _; omega
  | succ rem ih =>
      intro a lastE lastS h1 h2 hprev
      rcases Nat.lt_or_ge (a + 1) n with hlt | hge
      · have hr : retryableErr (oracle (a + 1)) = true :=
          hprev (a + 1) (by omega) hlt
        cases ho : oracle (a + 1) with
        | ok body => rw [ho] at hr; simp [retryableErr] at hr
        | err msg st' =>
            rw [ho] at hr
            have hst' : nonRetryable st' = false := by
              simpa [retryableErr] using hr
            rw [sendLoopAux, ho]
            simp only [hst', Bool.false_eq_true, if_false]
            exact ih (a + 1) (some msg) st' hlt (by omega)
              (fun i hi1 hi2 => hprev i (by omega) hi2)
      · have hn : n = a + 1 := by omega
        have hb : oracle (a + 1) = .err e st := by rw [← hn]; exact hbad
        rw [sendLoopAux, hb]
        simp [hst, hn]

/-- Claim C4: if the attempt numbered `n` is the first to receive a status
in {400, 401, 403, 404} (every earlier attempt having failed retryably),
and `n` is within `max_attempts`, then `send_with_retry` stops after that
attempt and returns a Failure carrying that status, that error message and
`attempts = n`, having called `record_failure` and `release` exactly once
each (and `record_success` never), leaving the endpoint state at
`release (record_failure state)`. -/
theorem c4_nonretryable_stops (maxAttempts : Nat) (oracle : Nat → AttemptResult)
    (req : ApiRequest) (epCfg : EndpointConfig) (latency now : Nat)
    (s : EndpointState) (n code : Nat) (e : String)
    (hn1 : 1 ≤ n) (hn2 : n ≤ maxAttempts)
    (hbad : oracle n = .err e (some code))
    (hcode : code = 400 ∨ code = 401 ∨ code = 403 ∨ code = 404)
    (hprev : ∀ i, 1 ≤ i → i < n → retryableErr (oracle i) = true) :
    (sendWithRetry maxAttempts oracle req epCfg latency now s).1 =
      .failure { input := req.input, body := req.body, error := e,
                 statusCode := some code, lineNumber := req.lineNumber,
                 attempts := n } ∧
    countEv .recordFailureEv
      (sendWithRetry maxAttempts oracle req epCfg latency now s).2.2 = 1 ∧
    countEv .releaseEv
      (sendWithRetry maxAttempts oracle req epCfg latency now s).2.2 = 1 ∧
    countEv .recordSuccessEv
      (sendWithRetry maxAttempts oracle req epCfg latency now s).2.2 = 0 ∧
    (sendWithRetry maxAttempts oracle req epCfg latency now s).2.1 =
      release (recordFailure now s) := by
  have hst : nonRetryable (some code) = true := by
    rcases hcode with h | h | h | h <;> simp [nonRetryable, h]
  have hloop : sendLoop maxAttempts oracle = .exited (some e) (some code) n :=
    sendLoopAux_exits_nonretryable oracle n e (some code) hbad hst
      maxAttempts 0 none none (by omega) (by omega)
      (fun i hi1 hi2 => hprev i hi1 hi2)
  unfold sendWithRetry
  rw [hloop]
  exact ⟨rfl, rfl, rfl, rfl, rfl⟩

/-- Witness for C4: a first attempt answered with status 401 yields a
single-attempt Failure with that status, one `record_failure` and one
`release`. -/
theorem c4_nonretryable_stops_witness :
    (sendWithRetry 3
        (fun i => if i = 1 then .err "HTTP 401: unauthorized" (some 401) else .ok 0)
        { input := some "x", body := none, lineNumber := 1 }
        { url := "http://a", weight := 1, apiKey := none, model := none,
          maxConcurrent := 100 } 5 9 Endpoint.init).1 =
      .failure { input := some "x", body := none,
                 error := "HTTP 401: unauthorized", statusCode := some 401,
                 lineNumber := 1, attempts := 1 } := by
  have h := c4_nonretryable_stops 3
    (fun i => if i = 1 then .err "HTTP 401: unauthorized" (some 401) else .ok 0)
    { input := some "x", body := none, lineNumber := 1 }
    { url := "http://a", weight := 1, apiKey := none, model := none,
      maxConcurrent := 100 } 5 9 Endpoint.init 1 401 "HTTP 401: unauthorized"
    (by omega) (by omega) (by simp) (by omega)
    (fun i hi1 hi2 => by omega)
  exact h.1

/-- A configuration with `retry.max_attempts = 0` that passes
`Config::validate` (which never inspects `max_attempts`). -/
def c10Config : Config :=
  { endpoints := [{ url := "http://a", weight := 1, apiKey := none,
                    model := none, maxConcurrent := 100 }],
    request := { timeoutMs := 30000, rateLimit := 1000, workers := 50 },
    retry := { maxAttempts := 0, initialBackoffMs := 100,
               maxBackoffMs := 10000, multiplier := 2 } }

/-- Claim C10: `Config::validate` accepts a configuration whose
`retry.max_attempts` is 0, and with `max_attempts = 0` the retry loop of
`send_with_retry` never runs: no attempt is made and the result is a
Failure with `attempts = 0`, error "Unknown error" and no status code,
while `record_failure` and `release` are still called exactly once each. -/
theorem c10_zero_max_attempts (cfg : Config) (oracle : Nat → AttemptResult)
    (req : ApiRequest) (epCfg : EndpointConfig) (latency now : Nat)
    (s : EndpointState) (h : cfg.retry.maxAttempts = 0) :
    Config.validate c10Config = .ok () ∧
    c10Config.retry.maxAttempts = 0 ∧
    (sendWithRetry cfg.retry.maxAttempts oracle req epCfg latency now s).1 =
      .failure { input := req.input, body := req.body,
                 error := "Unknown error", statusCode := none,
                 lineNumber := req.lineNumber, attempts := 0 } ∧
    countEv .recordFailureEv
      (sendWithRetry cfg.retry.maxAttempts oracle req epCfg latency now s).2.2 = 1 ∧
    countEv .releaseEv
      (sendWithRetry cfg.retry.maxAttempts oracle req epCfg latency now s).2.2 = 1 ∧
    (sendWithRetry cfg.retry.maxAttempts oracle req epCfg latency now s).2.1 =
      release (recordFailure now s) := by
  rw [h]
  exact ⟨rfl, rfl, rfl, rfl, rfl, rfl⟩

/-- Witness for C10 at a concrete input: with `c10Config` itself, the
result carries `attempts = 0` and the error "Unknown error". -/
theorem c10_zero_max_attempts_witness :
    (sendWithRetry c10Config.retry.maxAttempts (fun _ => .ok 0)
        { input := none, body := some 5, lineNumber := 2 }
        { url := "http://a", weight := 1, apiKey := none, model := none,
          maxConcurrent := 100 } 0 0 Endpoint.init).1 =
      .failure { input := none, body := some 5, error := "Unknown error",
                 statusCode := none, lineNumber := 2, attempts := 0 } := by
  exact (c10_zero_max_attempts c10Config (fun _ => .ok 0)
    { input := none, body := some 5, lineNumber := 2 }
    { url := "http://a", weight := 1, apiKey := none, model := none,
      maxConcurrent := 100 } 0 0 Endpoint.init rfl).2.2.1

lemma recordFailure_inFlight (now : Nat) (s : EndpointState) :
    (recordFailure now s).inFlight = s.inFlight := by
  simp only [recordFailure, markUnhealthy]
  split <;> rfl

lemma sendWithRetry_release_once (maxAttempts : Nat)
    (oracle : Nat → AttemptResult) (req : ApiRequest)
    (epCfg : EndpointConfig) (latency now : Nat) (s : EndpointState) :
    (sendWithRetry maxAttempts oracle req epCfg latency now s).2.1.inFlight =
      (release s).inFlight ∧
    countEv .releaseEv
      (sendWithRetry maxAttempts oracle req epCfg latency now s).2.2 = 1 ∧
    countEv .acquireOk
      (sendWithRetry maxAttempts oracle req epCfg latency now s).2.2 = 0 := by
  unfold sendWithRetry
  cases sendLoop maxAttempts oracle with
  | success b a =>
      refine ⟨?_, rfl, rfl⟩
      simp [release, recordSuccess, markHealthy]
  | exited le ls a =>
      refine ⟨?_, rfl, rfl⟩
      simp [release, recordFailure_inFlight]

/-- Claim C1, amended: on the per-request dispatch path, `release` is
called exactly once regardless of how the acquire phase went; when the
selected endpoint has capacity (`in_flight < max_concurrent`) exactly one
`acquire` succeeds and `in_flight` returns to its initial value, but when
it has none, no `acquire` succeeds, the task proceeds anyway, and the
unpaired `release` still decrements the counter (wrapping at zero). -/
theorem c1_release_pairing (maxAttempts : Nat) (oracle : Nat → AttemptResult)
    (req : ApiRequest) (epCfg : EndpointConfig) (latency now : Nat)
    (s : EndpointState) :
    countEv .releaseEv
      (processTask maxAttempts oracle req epCfg latency now s).2.2 = 1 ∧
    (s.inFlight < epCfg.maxConcurrent →
        countEv .acquireOk
          (processTask maxAttempts oracle req epCfg latency now s).2.2 = 1 ∧
        (processTask maxAttempts oracle req epCfg latency now s).2.1.inFlight =
          s.inFlight) ∧
    (epCfg.maxConcurrent ≤ s.inFlight →
        countEv .acquireOk
          (processTask maxAttempts oracle req epCfg latency now s).2.2 = 0 ∧
        (processTask maxAttempts oracle req epCfg latency now s).2.1.inFlight =
          (release s).inFlight) := by
  by_cases hc : epCfg.maxConcurrent ≤ s.inFlight
  · have hap : acquirePhase epCfg s =
        (s, [.acquireFail, .acquireFail, .acquireFail]) := by
      simp [acquirePhase, acquire, hc]
    have hsw := sendWithRetry_release_once maxAttempts oracle req epCfg latency now s
    simp only [countEv] at hsw
    refine ⟨?_, fun hlt => absurd hlt (by omega), fun _ => ⟨?_, ?_⟩⟩
    · simp only [processTask, hap, countEv, List.count_append]
      rw [hsw.2.1]
      decide
    · simp only [processTask, hap, countEv, List.count_append]
      rw [hsw.2.2]
      decide
    · simp only [processTask, hap]
      exact hsw.1
  · have hap : acquirePhase epCfg s =
        ({ s with inFlight := s.inFlight + 1 }, [.acquireOk]) := by
      simp [acquirePhase, acquire, hc]
    have hsw := sendWithRetry_release_once maxAttempts oracle req epCfg latency
      now { s with inFlight := s.inFlight + 1 }
    simp only [countEv] at hsw
    refine ⟨?_, fun _ => ⟨?_, ?_⟩, fun hge => absurd hge (by omega)⟩
    · simp only [processTask, hap, countEv, List.count_append]
      rw [hsw.2.1]
      decide
    · simp only [processTask, hap, countEv, List.count_append]
      rw [hsw.2.2]
      decide
    · simp only [processTask, hap]
      rw [hsw.1]
      simp [release]

/-- Witness for C1 (amended) at a concrete input: one successful acquire,
one release, and `in_flight` back to zero. -/
theorem c1_release_pairing_witness :
    countEv .releaseEv
      (processTask 1 (fun _ => .ok 7)
        { input := some "x", body := none, lineNumber := 1 }
        { url := "http://a", weight := 1, apiKey := none, model := none,
          maxConcurrent := 2 } 0 0 Endpoint.init).2.2 = 1 ∧
    (processTask 1 (fun _ => .ok 7)
        { input := some "x", body := none, lineNumber := 1 }
        { url := "http://a", weight := 1, apiKey := none, model := none,
          maxConcurrent := 2 } 0 0 Endpoint.init).2.1.inFlight = 0 := by
  have h := c1_release_pairing 1 (fun _ => .ok 7)
    { input := some "x", body := none, lineNumber := 1 }
    { url := "http://a", weight := 1, apiKey := none, model := none,
      maxConcurrent := 2 } 0 0 Endpoint.init
  exact ⟨h.1, ((h.2.1 (by decide)).2 : _ = Endpoint.init.inFlight)⟩

/-- The endpoint of the C1 counterexample: `max_concurrent = 0`, which
`Config::validate` accepts. -/
def c1EpCfg : EndpointConfig :=
  { url := "http://a", weight := 1, apiKey := none, model := none,
    maxConcurrent := 0 }

/-- A full configuration containing `c1EpCfg`. -/
def c1Config : Config :=
  { endpoints := [c1EpCfg],
    request := { timeoutMs := 30000, rateLimit := 1000, workers := 50 },
    retry := { maxAttempts := 3, initialBackoffMs := 100,
               maxBackoffMs := 10000, multiplier := 2 } }

/-- Counterexample to C1 as stated: with the validate-accepted
configuration `c1Config`, a dispatched request finds `acquire` failing on
all three tries, the task proceeds regardless, and `send_with_retry`
still calls `release`: one `release` with zero successful acquires, after
which `in_flight` is not zero (it wraps to `usize::MAX`). -/
theorem c1_counterexample :
    Config.validate c1Config = .ok () ∧
    countEv .acquireOk
      (processTask 3 (fun _ => .err "Request failed: connection refused" none)
        { input := some "x", body := none, lineNumber := 1 }
        c1EpCfg 0 0 Endpoint.init).2.2 = 0 ∧
    countEv .releaseEv
      (processTask 3 (fun _ => .err "Request failed: connection refused" none)
        { input := some "x", body := none, lineNumber := 1 }
        c1EpCfg 0 0 Endpoint.init).2.2 = 1 ∧
    (processTask 3 (fun _ => .err "Request failed: connection refused" none)
        { input := some "x", body := none, lineNumber := 1 }
        c1EpCfg 0 0 Endpoint.init).2.1.inFlight ≠ 0 := by
  refine ⟨rfl, by decide, by decide, by decide⟩

/-- Sum of the weights of a candidate list (`endpoint.rs`, line 209). -/
def sumWeights {α : Type} (wt : α → Nat) (l : List α) : Nat :=
  (l.map wt).sum

/-- The subtraction loop of `LoadBalancer::weighted_select` (`endpoint.rs`,
lines 213-218): returns the first candidate whose weight exceeds the
remaining pick, subtracting each passed weight; `none` when the loop falls
through. -/
def weightedLoop {α : Type} (wt : α → Nat) : List α → Nat → Option α
  | [], _ => none
  | x :: rest, pick =>
      if pick < wt x then some x else weightedLoop wt rest (pick - wt x)

/-- Model of `LoadBalancer::weighted_select` (`endpoint.rs`, lines 208-222) with the
random draw passed in: `none` models the panic of
`random_range(0..total)` on an empty range (total weight zero); otherwise
the loop result, falling back to the first candidate if the loop falls
through. -/
def weightedSelect {α : Type} (wt : α → Nat) (l : List α) (pick : Nat) :
    Option α :=
  if sumWeights wt l = 0 then none
  else
    match weightedLoop wt l pick with
    | some x => some x
    | none => l.head?

lemma weightedLoop_spec {α : Type} (wt : α → Nat) :
    ∀ (l : List α) (pick : Nat), pick < sumWeights wt l →
      ∃ k, ∃ hk : k < l.length,
        weightedLoop wt l pick = some (l.get ⟨k, hk⟩) ∧
        sumWeights wt (l.take k) ≤ pick ∧
        pick < sumWeights wt (l.take (k + 1)) := by
  intro l
  induction l with
  | nil => intro pick h; simp [sumWeights] at h
  | cons x rest ih =>
      intro pick h
      by_cases hx : pick < wt x
      · refine ⟨0, by simp, ?_, ?_, ?_⟩
        · simp [weightedLoop, hx]
        · simp [sumWeights]
        · simpa [sumWeights] using hx
      · have hwx : wt x ≤ pick := by omega
        have hrest : pick - wt x < sumWeights wt rest := by
          have hsum : sumWeights wt (x :: rest) = wt x + sumWeights wt rest := by
            simp [sumWeights]
          omega
        obtain ⟨k, hk, hloop, h1, h2⟩ := ih (pick - wt x) hrest
        refine ⟨k + 1, by simpa using Nat.succ_lt_succ hk, ?_, ?_, ?_⟩
        · simpa [weightedLoop, hx] using hloop
        · have : sumWeights wt ((x :: rest).take (k + 1)) =
              wt x + sumWeights wt (rest.take k) := by
            simp [sumWeights]
          omega
        · have : sumWeights wt ((x :: rest).take (k + 1 + 1)) =
              wt x + sumWeights wt (rest.take (k + 1)) := by
            simp [sumWeights]
          omega

lemma weightedSelect_mem {α : Type} (wt : α → Nat) (l : List α) (pick : Nat)
    (h : pick < sumWeights wt l) :
    ∃ x ∈ l, weightedSelect wt l pick = some x := by
  obtain ⟨k, hk, hloop, -, -⟩ := weightedLoop_spec wt l pick h
  refine ⟨l.get ⟨k, hk⟩, l.get_mem _ _, ?_⟩
  unfold weightedSelect
  have hsum : ¬ sumWeights wt l = 0 := by omega
  simp [hsum, hloop]

/-- A candidate in the balancer: an endpoint with its mutable state. -/
abbrev WEndpoint := EndpointConfig × EndpointState

/-- The shared endpoint list of the `LoadBalancer`. -/
abbrev World := List WEndpoint

/-- The weight of an indexed candidate (`e.config.weight`). -/
def epWeight : Nat × WEndpoint → Nat := fun x => x.2.1.weight

/-- The fast-path candidates of `select_with_cooldown` (`endpoint.rs`,
lines 183-187): healthy endpoints with capacity, tagged with their index. -/
def fastFilter (w : World) : List (Nat × WEndpoint) :=
  w.enum.filter (fun x => x.2.2.healthy && canAccept x.2.1 x.2.2)

/-- The recovery-path candidates of `select_with_cooldown` (`endpoint.rs`,
lines 194-198): endpoints past `should_retry` with capacity. -/
def recoveryFilter (now cooldown : Nat) (w : World) : List (Nat × WEndpoint) :=
  w.enum.filter (fun x => shouldRetry now cooldown x.2.2 && canAccept x.2.1 x.2.2)

/-- From `error.rs`, `BlazeError::AllEndpointsUnhealthy` (the only selection
error). -/
inductive SelectError where
  | allUnhealthy
deriving DecidableEq

/-- Model of `LoadBalancer::select_with_cooldown` (`endpoint.rs`, lines 181-205)
with the two possible random draws passed in; the outer `none` models the
panic of a zero-total-weight draw. -/
def selectWithCooldown (w : World) (now cooldown pick1 pick2 : Nat) :
    Option (Except SelectError (Nat × WEndpoint)) :=
  let available := fastFilter w
  if available.isEmpty then
    let recovering := recoveryFilter now cooldown w
    if recovering.isEmpty then some (.error .allUnhealthy)
    else (weightedSelect epWeight recovering pick2).map .ok
  else (weightedSelect epWeight available pick1).map .ok

/-- Model of `LoadBalancer::select` (`endpoint.rs`, lines 176-178): the cooldown is
30 seconds. -/
def select (w : World) (now pick1 pick2 : Nat) :
    Option (Except SelectError (Nat × WEndpoint)) :=
  selectWithCooldown w now 30000 pick1 pick2

/-- Claim C5: with random draws in range, `select` (cooldown 30 s) returns
a member of the fast-path set (healthy with `in_flight < max_concurrent`)
whenever it is non-empty, otherwise a member of the recovery set
(`should_retry` holds — healthy, or quarantined at least 30 s ago, or
never quarantined — with `in_flight < max_concurrent`), and it returns
the all-unhealthy error exactly when both sets are empty. -/
theorem c5_selection_policy (w : World) (now pick1 pick2 : Nat)
    (h1 : fastFilter w ≠ [] → pick1 < sumWeights epWeight (fastFilter w))
    (h2 : fastFilter w = [] → recoveryFilter now 30000 w ≠ [] →
        pick2 < sumWeights epWeight (recoveryFilter now 30000 w)) :
    (fastFilter w ≠ [] →
        ∃ x ∈ fastFilter w, select w now pick1 pick2 = some (.ok x)) ∧
    (fastFilter w = [] → recoveryFilter now 30000 w ≠ [] →
        ∃ x ∈ recoveryFilter now 30000 w,
          select w now pick1 pick2 = some (.ok x)) ∧
    (select w now pick1 pick2 = some (.error .allUnhealthy) ↔
        fastFilter w = [] ∧ recoveryFilter now 30000 w = []) := by
  unfold select selectWithCooldown
  by_cases hf : fastFilter w = []
  · by_cases hr : recoveryFilter now 30000 w = []
    · refine ⟨fun h => absurd hf h, fun _ h => absurd hr h, ?_⟩
      simp [hf, hr]
    · obtain ⟨x, hx, hsel⟩ :=
        weightedSelect_mem epWeight (recoveryFilter now 30000 w) pick2 (h2 hf hr)
      refine ⟨fun h => absurd hf h, fun _ _ => ⟨x, hx, ?_⟩, ?_⟩
      · simp [hf, List.isEmpty_iff, hr, hsel]
      · simp [hf, List.isEmpty_iff, hr, hsel]
  · obtain ⟨x, hx, hsel⟩ :=
      weightedSelect_mem epWeight (fastFilter w) pick1 (h1 hf)
    refine ⟨fun _ => ⟨x, hx, ?_⟩, fun h => absurd h hf, ?_⟩
    · simp [List.isEmpty_iff, hf, hsel]
    · simp [List.isEmpty_iff, hf, hsel]

/-- A concrete balancer with one healthy endpoint with capacity and one
quarantined endpoint, for the C5 witness. -/
def c5World : World :=
  [({ url := "http://a", weight := 2, apiKey := none, model := none,
      maxConcurrent := 10 }, Endpoint.init),
   ({ url := "http://b", weight := 1, apiKey := none, model := none,
      maxConcurrent := 10 },
    { inFlight := 0, successCount := 0, failureCount := 3, totalLatencyUs := 0,
      healthy := false, lastHealthCheck := some 0, consecutiveFailures := 3 })]

/-- Witness for C5 at a concrete input: the fast path is non-empty and
selection returns one of its members. -/
theorem c5_selection_policy_witness :
    ∃ x ∈ fastFilter c5World, select c5World 100 0 0 = some (.ok x) := by
  exact (c5_selection_policy c5World 100 0 0 (by decide) (by decide)).1 (by decide)

/-- Claim C6: for a candidate list of positive weights and a draw below the
total weight, the subtraction loop returns the first candidate whose
cumulative-weight interval contains the pick, `weighted_select` returns
that same candidate, and the fallback branch is never taken (the loop
itself already produces the result). -/
theorem c6_weighted_pick (l : List (Nat × WEndpoint)) (pick : Nat)
    (_hw : ∀ x ∈ l, 0 < epWeight x)
    (hpick : pick < sumWeights epWeight l) :
    ∃ k, ∃ hk : k < l.length,
      weightedLoop epWeight l pick = some (l.get ⟨k, hk⟩) ∧
      weightedSelect epWeight l pick = some (l.get ⟨k, hk⟩) ∧
      sumWeights epWeight (l.take k) ≤ pick ∧
      pick < sumWeights epWeight (l.take (k + 1)) := by
  obtain ⟨k, hk, hloop, ha, hb⟩ := weightedLoop_spec epWeight l pick hpick
  refine ⟨k, hk, hloop, ?_, ha, hb⟩
  unfold weightedSelect
  have hsum : ¬ sumWeights epWeight l = 0 := by omega
  simp [hsum, hloop]

/-- A two-candidate list (weights 1 and 3) for the C6 witness. -/
def c6List : List (Nat × WEndpoint) :=
  [(0, ({ url := "http://a", weight := 1, apiKey := none, model := none,
          maxConcurrent := 10 }, Endpoint.init)),
   (1, ({ url := "http://b", weight := 3, apiKey := none, model := none,
          maxConcurrent := 10 }, Endpoint.init))]

/-- Witness for C6 at a concrete input: draw 2 against weights [1, 3]
lands in the cumulative interval of the second candidate. -/
theorem c6_weighted_pick_witness :
    ∃ k, ∃ hk : k < c6List.length,
      weightedLoop epWeight c6List 2 = some (c6List.get ⟨k, hk⟩) ∧
      weightedSelect epWeight c6List 2 = some (c6List.get ⟨k, hk⟩) ∧
      sumWeights epWeight (c6List.take k) ≤ 2 ∧
      2 < sumWeights epWeight (c6List.take (k + 1)) := by
  exact c6_weighted_pick c6List 2 (by decide) (by decide)

/-- Model of `ApiClient::calculate_backoff` (`client.rs`, lines 173-183) over exact
rational arithmetic: `rand::random::<f64>()` is the draw `r`, and the
`as u64` cast of the nonnegative product is its floor. -/
def calculateBackoff (retry : RetryConfig) (attempt : Nat) (r : ℚ) : Nat :=
  let base : ℚ := retry.initialBackoffMs
  let multiplier : ℚ := retry.multiplier ^ (attempt - 1)
  let backoffMs : ℚ := base * multiplier
  let jitter : ℚ := 1 + (r - 1/2) * (1/2)
  let finalMs : Nat := (⌊backoffMs * jitter⌋).toNat
  min finalMs retry.maxBackoffMs

/-- The retry settings of the C7 counterexample: 10 ms initial backoff. -/
def c7Retry : RetryConfig :=
  { maxAttempts := 3, initialBackoffMs := 10, maxBackoffMs := 10000,
    multiplier := 2 }

/-- Counterexample to C7 as stated: with initial backoff 10 ms, attempt 1
and draw `r = 0`, the computed delay is 7 ms, strictly below the claimed
lower bound `0.75 · initial · multiplier^(n−1) = 7.5` even though the
`max_backoff` clamp is inactive: the `as u64` cast floors the product, so
the delay does not equal the jittered product and can leave the claimed
interval. -/
theorem c7_counterexample :
    calculateBackoff c7Retry 1 0 = 7 ∧
    ((calculateBackoff c7Retry 1 0 : ℚ) <
      3/4 * ((c7Retry.initialBackoffMs : ℚ) * c7Retry.multiplier ^ (1 - 1))) ∧
    calculateBackoff c7Retry 1 0 < c7Retry.maxBackoffMs := by
  have h : calculateBackoff c7Retry 1 0 = 7 := by
    have hp : ((c7Retry.initialBackoffMs : ℚ) * c7Retry.multiplier ^ (1 - 1)) *
        (1 + ((0 : ℚ) - 1/2) * (1/2)) = 15/2 := by
      norm_num [c7Retry]
    have hf : (⌊(15/2 : ℚ)⌋ : ℤ) = 7 := by
      rw [Int.floor_eq_iff]
      norm_num
    simp only [calculateBackoff, hp, hf]
    rfl
  refine ⟨h, ?_, by rw [h]; decide⟩
  rw [h]
  show (7 : ℚ) < 3/4 * ((10 : ℚ) * 2 ^ (1 - 1))
  norm_num

lemma backoff_min_bounds (x j : ℚ) (maxB : Nat) (hx0 : 0 ≤ x)
    (hj34 : 3/4 ≤ j) (hj54 : j < 5/4) :
    min (⌊x * j⌋).toNat maxB ≤ maxB ∧
    ((min (⌊x * j⌋).toNat maxB : ℕ) : ℚ) ≤ 5/4 * x ∧
    (min (⌊x * j⌋).toNat maxB = maxB ∨
      (3/4 * x - 1 < ((min (⌊x * j⌋).toNat maxB : ℕ) : ℚ) ∧
        ((min (⌊x * j⌋).toNat maxB : ℕ) : ℚ) ≤ x * j)) := by
  have hj0 : (0 : ℚ) ≤ j := by linarith
  have hprod0 : (0 : ℚ) ≤ x * j := mul_nonneg hx0 hj0
  have hfl0 : (0 : ℤ) ≤ ⌊x * j⌋ := Int.floor_nonneg.mpr hprod0
  have hcast : ((⌊x * j⌋.toNat : ℕ) : ℚ) = ((⌊x * j⌋ : ℤ) : ℚ) := by
    rw [← Int.toNat_of_nonneg hfl0]
    norm_cast
  have hfl_le : ((⌊x * j⌋ : ℤ) : ℚ) ≤ x * j := Int.floor_le _
  have hfl_gt : x * j - 1 < ((⌊x * j⌋ : ℤ) : ℚ) := Int.sub_one_lt_floor _
  have h54 : x * j ≤ x * (5/4) := mul_le_mul_of_nonneg_left (le_of_lt hj54) hx0
  have h34 : x * (3/4) ≤ x * j := mul_le_mul_of_nonneg_left hj34 hx0
  refine ⟨Nat.min_le_right _ _, ?_, ?_⟩
  · have h1 : min (⌊x * j⌋).toNat maxB ≤ (⌊x * j⌋).toNat := Nat.min_le_left _ _
    have h2 : ((min (⌊x * j⌋).toNat maxB : ℕ) : ℚ) ≤ ((⌊x * j⌋.toNat : ℕ) : ℚ) := by
      exact_mod_cast h1
    rw [hcast] at h2
    nlinarith [h2, hfl_le, h54]
  · rcases Nat.le_total (⌊x * j⌋).toNat maxB with hle | hge
    · right
      have hdv : min (⌊x * j⌋).toNat maxB = (⌊x * j⌋).toNat := Nat.min_eq_left hle
      rw [hdv, hcast]
      constructor
      · nlinarith [hfl_gt, h34]
      · exact hfl_le
    · left
      exact Nat.min_eq_right hge

/-- Claim C7, amended: the delay is
`min(⌊initial · multiplier^(n−1) · jitter⌋, max_backoff)` with
`jitter = 1 + (r − 0.5) · 0.5 ∈ [0.75, 1.25)`; hence it never exceeds
`max_backoff` nor `1.25 ·` the unjittered base, and unless the clamp is
active it exceeds `0.75 ·` the base minus one (the floor can lose up to
one millisecond below the claimed interval). -/
theorem c7_backoff_bounds (retry : RetryConfig) (attempt : Nat) (r : ℚ)
    (hr0 : 0 ≤ r) (hr1 : r < 1) (hm : 0 ≤ retry.multiplier) :
    calculateBackoff retry attempt r =
      min (⌊((retry.initialBackoffMs : ℚ) * retry.multiplier ^ (attempt - 1)) *
            (1 + (r - 1/2) * (1/2))⌋).toNat retry.maxBackoffMs ∧
    (3/4 : ℚ) ≤ 1 + (r - 1/2) * (1/2) ∧
    (1 + (r - 1/2) * (1/2) : ℚ) < 5/4 ∧
    calculateBackoff retry attempt r ≤ retry.maxBackoffMs ∧
    ((calculateBackoff retry attempt r : ℚ) ≤
      5/4 * ((retry.initialBackoffMs : ℚ) * retry.multiplier ^ (attempt - 1))) ∧
    (calculateBackoff retry attempt r = retry.maxBackoffMs ∨
      (3/4 * ((retry.initialBackoffMs : ℚ) * retry.multiplier ^ (attempt - 1)) - 1 <
          (calculateBackoff retry attempt r : ℚ) ∧
        (calculateBackoff retry attempt r : ℚ) ≤
          ((retry.initialBackoffMs : ℚ) * retry.multiplier ^ (attempt - 1)) *
            (1 + (r - 1/2) * (1/2)))) := by
  have hx0 : (0 : ℚ) ≤ (retry.initialBackoffMs : ℚ) * retry.multiplier ^ (attempt - 1) :=
    mul_nonneg (Nat.cast_nonneg _) (pow_nonneg hm _)
  have hj34 : (3/4 : ℚ) ≤ 1 + (r - 1/2) * (1/2) := by linarith
  have hj54 : (1 + (r - 1/2) * (1/2) : ℚ) < 5/4 := by linarith
  have hd : calculateBackoff retry attempt r =
      min (⌊((retry.initialBackoffMs : ℚ) * retry.multiplier ^ (attempt - 1)) *
            (1 + (r - 1/2) * (1/2))⌋).toNat retry.maxBackoffMs := rfl
  obtain ⟨hb1, hb2, hb3⟩ := backoff_min_bounds
    ((retry.initialBackoffMs : ℚ) * retry.multiplier ^ (attempt - 1))
    (1 + (r - 1/2) * (1/2)) retry.maxBackoffMs hx0 hj34 hj54
  rw [← hd] at hb1 hb2 hb3
  exact ⟨hd, hj34, hj54, hb1, hb2, hb3⟩

/-- Witness for C7 (amended) at a concrete input: attempt 2 with draw
`r = 1/2` (jitter exactly 1) stays within `max_backoff`. -/
theorem c7_backoff_bounds_witness :
    calculateBackoff { maxAttempts := 3, initialBackoffMs := 100,
                       maxBackoffMs := 10000, multiplier := 2 } 2 (1/2) ≤ 10000 := by
  exact (c7_backoff_bounds
    { maxAttempts := 3, initialBackoffMs := 100, maxBackoffMs := 10000,
      multiplier := 2 } 2 (1/2) (by norm_num) (by norm_num) (by norm_num)).2.2.2.1

/-- A character of a UTF-8 string: its code point (abstract) together
with the number of bytes of its UTF-8 encoding. -/
structure UChar where
  code : Nat
  width : Nat
deriving DecidableEq

/-- The byte length of a string, `str::len` in Rust. -/
def byteLen (s : List UChar) : Nat := (s.map UChar.width).sum

/-- The byte slice `&s[..n]` of a Rust `str`: defined (as the list of
whole characters spanning the first `n` bytes) exactly when `n` is a
character boundary within the string; `none` models the panic raised when
`n` exceeds the length or falls inside a multi-byte character. -/
def bytePrefix : List UChar → Nat → Option (List UChar)
  | _, 0 => some []
  | [], _ + 1 => none
  | c :: rest, n + 1 =>
      if c.width ≤ n + 1 then (bytePrefix rest (n + 1 - c.width)).map (c :: ·)
      else none

/-- The body-truncation step of `send_once` (`client.rs`, lines 159-164):
bodies longer than 500 bytes are sliced at byte 500 and flagged for the
"..." suffix; `none` models the panic of the slice. -/
def truncateErrorBody (s : List UChar) : Option (List UChar × Bool) :=
  if 500 < byteLen s then (bytePrefix s 500).map (fun p => (p, true))
  else some (s, false)

/-- The failure-message construction of `send_once` (`client.rs`, lines
159-168): the status paired with the (possibly truncated) body text. -/
def buildErrorMessage (status : Nat) (body : List UChar) :
    Option (Nat × List UChar × Bool) :=
  (truncateErrorBody body).map (fun p => (status, p))

/-- The failing input for C9: 499 one-byte characters, then a two-byte
character (so byte 500 falls inside it), then one more byte. -/
def c9Body : List UChar :=
  List.replicate 499 { code := 97, width := 1 } ++
    [{ code := 233, width := 2 }, { code := 98, width := 1 }]

set_option maxRecDepth 4000 in
/-- Claim C9 fails on the code: this 502-byte body is longer than 500
bytes, every character is a well-formed UTF-8 width, yet building the
failure message panics (`&error_body[..500]` slices inside the two-byte
character), instead of producing the first 500 bytes suffixed with
"...". -/
theorem c9_truncation_panics :
    buildErrorMessage 500 c9Body = none ∧ 500 < byteLen c9Body := by
  refine ⟨rfl, by decide⟩

/-- The per-task nondeterminism of one dispatched request: the time at
which the task runs, the two possible random draws of selection, the
observed latency, and the outcome oracle of its HTTP attempts. -/
structure TaskParams where
  now : Nat
  pick1 : Nat
  pick2 : Nat
  latency : Nat
  oracle : Nat → AttemptResult

/-- What one dispatch task produces (`processor.rs`, lines 112-183): its
task result (`Err` on selection failure, the request result otherwise,
`none` for the modelled selection panic), the endpoint list afterwards,
and the lines appended to the success and failure sinks. -/
structure StepOutput where
  result : Option (Except SelectError RequestResult)
  world : World
  successLines : List ApiResponse
  failureLines : List ErrorResponse

/-- One dispatch task (`processor.rs`, lines 112-183): select an endpoint
— returning the error immediately when selection fails, with nothing
written to either sink — then run the acquire phase and
`send_with_retry`, and route the outcome: a Success is written to the
success sink only when one is configured, a Failure is written to the
failure sink. -/
def processOne (maxAttempts : Nat) (outputConfigured : Bool) (w : World)
    (p : TaskParams) (req : ApiRequest) : StepOutput :=
  match select w p.now p.pick1 p.pick2 with
  | none =>
      { result := none, world := w, successLines := [], failureLines := [] }
  | some (.error e) =>
      { result := some (.error e), world := w,
        successLines := [], failureLines := [] }
  | some (.ok (idx, epCfg, epSt)) =>
      let t := processTask maxAttempts p.oracle req epCfg p.latency p.now epSt
      let w' := w.set idx (epCfg, t.2.1)
      match t.1 with
      | .success resp =>
          { result := some (.ok (.success resp)), world := w',
            successLines := if outputConfigured then [resp] else [],
            failureLines := [] }
      | .failure er =>
          { result := some (.ok (.failure er)), world := w',
            successLines := [], failureLines := [er] }

/-- The dispatch loop over the request sequence (`processor.rs`, lines
100-187), sequentialized: per-request routing is unchanged and the
output order of the concurrent original is unspecified anyway. Returns
the final endpoint list, one task result per request, and the two sink
contents. -/
def processAll (maxAttempts : Nat) (outputConfigured : Bool) :
    World → List (TaskParams × ApiRequest) →
      World × List (Option (Except SelectError RequestResult)) ×
        List ApiResponse × List ErrorResponse
  | w, [] => (w, [], [], [])
  | w, (p, req) :: rest =>
      let st := processOne maxAttempts outputConfigured w p req
      let out := processAll maxAttempts outputConfigured st.world rest
      (out.1, st.result :: out.2.1, st.successLines ++ out.2.2.1,
       st.failureLines ++ out.2.2.2)

/-- Number of sink lines one task emits. -/
def emittedCount (st : StepOutput) : Nat :=
  st.successLines.length + st.failureLines.length

lemma processAll_length (maxAttempts : Nat) (oc : Bool) :
    ∀ (jobs : List (TaskParams × ApiRequest)) (w : World),
      (processAll maxAttempts oc w jobs).2.1.length = jobs.length := by
  intro jobs
  induction jobs with
  | nil => intro w; rfl
  | cons j rest ih =>
      intro w
      obtain ⟨p, req⟩ := j
      simp only [processAll, List.length_cons]
      rw [ih]

/-- Claim C2, amended: when `select` fails with the all-unhealthy error,
the dispatch task does not retry selection: it returns the selection
error at once, leaves the endpoints untouched, and writes nothing to
either sink — in particular no "no endpoints available" failure record
exists — while the run is not aborted: every request of the batch still
yields its own task result. -/
theorem c2_allunhealthy_immediate_error (maxAttempts : Nat) (oc : Bool)
    (w : World) (p : TaskParams) (req : ApiRequest)
    (h : select w p.now p.pick1 p.pick2 = some (.error .allUnhealthy)) :
    processOne maxAttempts oc w p req =
      { result := some (.error .allUnhealthy), world := w,
        successLines := [], failureLines := [] } ∧
    ∀ rest : List (TaskParams × ApiRequest),
      (processAll maxAttempts oc w ((p, req) :: rest)).2.1.length =
        rest.length + 1 := by
  constructor
  · simp [processOne, h]
  · intro rest
    simpa using processAll_length maxAttempts oc ((p, req) :: rest) w

/-- The world of the C2 counterexample: a single endpoint quarantined
5 seconds ago, within the 30-second cooldown. -/
def c2World : World :=
  [({ url := "http://a", weight := 1, apiKey := none, model := none,
      maxConcurrent := 100 },
    { inFlight := 0, successCount := 0, failureCount := 3,
      totalLatencyUs := 0, healthy := false, lastHealthCheck := some 0,
      consecutiveFailures := 3 })]

/-- The task parameters of the C2 counterexample. -/
def c2Params : TaskParams :=
  { now := 5000, pick1 := 0, pick2 := 0, latency := 0,
    oracle := fun _ => .ok 0 }

/-- The request of the C2 counterexample. -/
def c2Req : ApiRequest := { input := some "x", body := none, lineNumber := 1 }

/-- Counterexample to C2 as stated: on this all-unhealthy world the task
returns the selection error with an empty failure sink — no grace retry
happens and no terminal Failure with "no endpoints available" is routed
anywhere. -/
theorem c2_counterexample :
    (processOne 3 true c2World c2Params c2Req).failureLines = [] ∧
    (processOne 3 true c2World c2Params c2Req).result =
      some (.error .allUnhealthy) :=
  ⟨rfl, rfl⟩

/-- Witness for C2 (amended) at the concrete counterexample input. -/
theorem c2_allunhealthy_immediate_error_witness :
    processOne 3 true c2World c2Params c2Req =
      { result := some (.error .allUnhealthy), world := c2World,
        successLines := [], failureLines := [] } :=
  (c2_allunhealthy_immediate_error 3 true c2World c2Params c2Req rfl).1

/-- Claim C3, amended: a task that selects an endpoint emits exactly one
sink record when a success sink is configured (and at most one — zero
exactly for a Success with no success sink — when not); a task whose
selection fails emits no record at all. -/
theorem c3_one_record_per_selected_request (maxAttempts : Nat) (oc : Bool)
    (w : World) (p : TaskParams) (req : ApiRequest) :
    (select w p.now p.pick1 p.pick2 = some (.error .allUnhealthy) →
        emittedCount (processOne maxAttempts oc w p req) = 0) ∧
    (∀ x, select w p.now p.pick1 p.pick2 = some (.ok x) →
        (oc = true → emittedCount (processOne maxAttempts oc w p req) = 1) ∧
        emittedCount (processOne maxAttempts oc w p req) ≤ 1) := by
  constructor
  · intro h
    simp [processOne, h, emittedCount]
  · rintro ⟨idx, epCfg, epSt⟩ h
    constructor
    · intro hoc
      subst hoc
      simp only [processOne, h]
      cases (processTask maxAttempts p.oracle req epCfg p.latency p.now epSt).1 with
      | success resp => simp [emittedCount]
      | failure er => simp [emittedCount]
    · simp only [processOne, h]
      cases (processTask maxAttempts p.oracle req epCfg p.latency p.now epSt).1 with
      | success resp =>
          cases oc <;> simp [emittedCount]
      | failure er => simp [emittedCount]

/-- The world of the C3 counterexample: a single quarantined endpoint
within cooldown, so selection fails. -/
def c3World : World :=
  [({ url := "http://a", weight := 1, apiKey := none, model := none,
      maxConcurrent := 100 },
    { inFlight := 0, successCount := 0, failureCount := 3,
      totalLatencyUs := 0, healthy := false, lastHealthCheck := some 0,
      consecutiveFailures := 3 })]

/-- The task parameters of the C3 counterexample. -/
def c3Params : TaskParams :=
  { now := 5000, pick1 := 0, pick2 := 0, latency := 0,
    oracle := fun _ => .ok 0 }

/-- The request of the C3 counterexample. -/
def c3Req : ApiRequest := { input := some "y", body := none, lineNumber := 2 }

/-- Counterexample to C3 as stated: on the path where endpoint selection
fails, the request enters the dispatcher but no outcome record is emitted
to either sink (the claim demands exactly one). -/
theorem c3_counterexample :
    emittedCount (processOne 3 true c3World c3Params c3Req) = 0 ∧
    (processOne 3 true c3World c3Params c3Req).result =
      some (.error .allUnhealthy) :=
  ⟨rfl, rfl⟩

/-- The world of the C3 witness: a single healthy endpoint. -/
def c3WitnessWorld : World :=
  [({ url := "http://a", weight := 1, apiKey := none, model := none,
      maxConcurrent := 100 }, Endpoint.init)]

/-- The candidate the C3 witness world selects. -/
def c3WitnessCandidate : Nat × WEndpoint :=
  (0, (⟨"http://a", 1, none, none, 100⟩, Endpoint.init))

/-- Witness for C3 (amended) at a concrete input: with a configured
success sink and a healthy endpoint, exactly one record is emitted. -/
theorem c3_one_record_per_selected_request_witness :
    emittedCount (processOne 3 true c3WitnessWorld c3Params c3Req) = 1 := by
  exact ((c3_one_record_per_selected_request 3 true c3WitnessWorld c3Params
    c3Req).2 c3WitnessCandidate rfl).1 rfl

end Blaze
